import Mathlib

/-!
Shallow embedding of the nicewin window-facade module (src/nicewin/__init__.py,
constants.py, structs.py) together with theorems settling the frozen claims.

The module is a thin wrapper over native Windows API entry points reached
through a dynamic foreign-call mechanism (ctypes.windll).  We model the
operating system as an oracle assigning an integer result to every native
invocation, plus an oracle for the text buffer that FormatMessageW allocates.
Each embedded function returns its Python result (Except PyError carries
raised exceptions) paired with the ordered list of native calls it issued.
-/

set_option autoImplicit false
set_option linter.unusedVariables false

namespace NiceWin

/-- A record of one native (Windows API) invocation: entry-point name,
integer arguments and string arguments, in the order the Python source
passes them. -/
structure NativeCall where
  name : String
  args : List Int
  strArgs : List String
deriving DecidableEq

/-- The ambient operating system, modelled as oracles: `call` gives the
integer result of a native invocation, and `formatBuffer` gives the text
FormatMessageW deposits in its allocated buffer for a given error code
(`none` when the call produces no text and allocates nothing, which is
what happens for unrecognized codes). -/
structure OS where
  call : NativeCall → Int
  formatBuffer : Int → Option String

/-- Exceptions the Python code can raise:  NiceWinException from the module
itself, and the interpreter-level AttributeError, TypeError and KeyError. -/
inductive PyError where
  | niceWinException : String → PyError
  | attributeError : String → PyError
  | typeError : String → PyError
  | keyError : Int → PyError
deriving DecidableEq

instance {ε α : Type} [DecidableEq ε] [DecidableEq α] : DecidableEq (Except ε α) := fun a b =>
  match a, b with
  | Except.ok x, Except.ok y =>
    if h : x = y then isTrue (by rw [h]) else isFalse (by intro hc; cases hc; exact h rfl)
  | Except.error x, Except.error y =>
    if h : x = y then isTrue (by rw [h]) else isFalse (by intro hc; cases hc; exact h rfl)
  | Except.ok _, Except.error _ => isFalse (by intro hc; cases hc)
  | Except.error _, Except.ok _ => isFalse (by intro hc; cases hc)

/-- The entry points of user32.dll, kernel32.dll and shcore.dll that this
module dispatches to by name.  Real Windows exports these names; the name
the source misspells, LocSetForegroundWindow, is not among them (user32
exports LockSetForegroundWindow, with a k). -/
def dllExports : List String :=
  ["AnimateWindow", "BringWindowToTop", "ClipCursor", "CloseWindow",
   "DestroyWindow", "FindWindowW", "FormatMessageW", "GetActiveWindow",
   "GetClientRect", "GetCursorPos", "GetDesktopWindow", "GetForegroundWindow",
   "GetLastError", "GetWindow", "GetWindowPlacement", "GetWindowRect",
   "GetWindowTextLengthW", "GetWindowTextW", "GetWindowThreadProcessId",
   "IsChild", "IsIconic", "IsWindow", "IsWindowUnicode", "IsWindowVisible",
   "IsZoomed", "LocalFree", "LockSetForegroundWindow", "MessageBoxW",
   "MonitorFromPoint", "MonitorFromRect", "MonitorFromWindow", "MoveWindow",
   "OpenIcon", "SetForegroundWindow", "SetWindowPos", "SetWindowTextW",
   "ShowWindow", "ShowWindowAsync", "WaitMessage", "WindowFromPhysicalPoint",
   "WindowFromPoint"]

/-- Embeds `ctypes.windll.<dll>.<name>(args)`: attribute access looks the symbol up
in the DLL export table and raises AttributeError when it is absent;
otherwise the entry point is invoked and its integer result returned.
The second component is the list of native calls actually issued. -/
def dllInvoke (os : OS) (name : String) (args : List Int) (strArgs : List String) :
    Except PyError Int × List NativeCall :=
  if dllExports.contains name then
    (Except.ok (os.call ⟨name, args, strArgs⟩), [⟨name, args, strArgs⟩])
  else
    (Except.error (PyError.attributeError name), [])

/-! Constants from constants.py. -/

def NULL : Int := 0
def SW_FORCEMINIMIZE : Int := 11
def SW_HIDE : Int := 0
def SW_RESTORE : Int := 9
def SW_SHOW : Int := 5
def SW_SHOWMAXIMIZED : Int := 3
def SW_SHOWMINIMIZED : Int := 2
def FORMAT_MESSAGE_ALLOCATE_BUFFER : Int := 0x00000100
def FORMAT_MESSAGE_FROM_SYSTEM : Int := 0x00001000
def FORMAT_MESSAGE_IGNORE_INSERTS : Int := 0x00000200
def LSFW_LOCK : Int := 1
def LSFW_UNLOCK : Int := 2
def MB_OKCANCEL : Int := 0x00000001
def IDABORT : Int := 3
def IDCANCEL : Int := 2
def IDCONTINUE : Int := 11
def IDIGNORE : Int := 5
def IDNO : Int := 7
def IDOK : Int := 1
def IDRETRY : Int := 4
def IDTRYAGAIN : Int := 10
def IDYES : Int := 6
def GW_CHILD : Int := 5

/-- The Window class: a wrapper holding the raw hWnd value. -/
structure Window where
  hWnd : Int
deriving DecidableEq

/-- Embeds `Window.__init__`: raises NiceWinException when the handle is falsy
(zero), otherwise stores it. -/
def Window.init (hWnd : Int) : Except PyError Window :=
  if hWnd = 0 then
    Except.error (PyError.niceWinException ("hWnd arg must be a nonzero integer"))
  else
    Except.ok ⟨hWnd⟩

/-- Python str.rstrip() with no argument: remove trailing whitespace. -/
def pyRstrip (s : String) : String :=
  String.mk ((s.data.reverse.dropWhile Char.isWhitespace).reverse)

/-- Combined flags value passed to FormatMessageW by format_message. -/
def fmtFlags : Int :=
  FORMAT_MESSAGE_FROM_SYSTEM + FORMAT_MESSAGE_ALLOCATE_BUFFER + FORMAT_MESSAGE_IGNORE_INSERTS

/-- Embeds `format_message(errorCode)`: invokes FormatMessageW with an
ALLOCATE_BUFFER request, reads `lpBuffer.value`, strips trailing
whitespace, frees the buffer with LocalFree, and returns the text.
When FormatMessageW produced no text, `lpBuffer.value` is Python None and
`None.rstrip()` raises AttributeError before the LocalFree line runs. -/
def format_message (os : OS) (errorCode : Int) : Except PyError String × List NativeCall :=
  match dllInvoke os ("FormatMessageW") [fmtFlags, NULL, errorCode, 0, 0, NULL] [] with
  | (Except.error e, t) => (Except.error e, t)
  | (Except.ok _, t) =>
    match os.formatBuffer errorCode with
    | none =>
      (Except.error (PyError.attributeError ("NoneType object has no attribute rstrip")), t)
    | some s =>
      match dllInvoke os ("LocalFree") [] [] with
      | (Except.error e, t2) => (Except.error e, t ++ t2)
      | (Except.ok _, t2) => (Except.ok (pyRstrip s), t ++ t2)

/-- Embeds `_raiseWithLastError()`: fetches GetLastError, formats it, and raises
NiceWinException carrying the code and message.  It always raises; when
format_message itself raises, that exception propagates instead. -/
def raiseWithLastError (os : OS) : PyError × List NativeCall :=
  match dllInvoke os ("GetLastError") [] [] with
  | (Except.error e, t) => (e, t)
  | (Except.ok errorCode, t) =>
    match format_message os errorCode with
    | (Except.error e, t2) => (e, t ++ t2)
    | (Except.ok msg, t2) =>
      (PyError.niceWinException
        ("Error code from Windows: " ++ toString errorCode ++ " - " ++ msg), t ++ t2)

/-- Embeds `get_foreground_window()`: null handle means None, without raising. -/
def get_foreground_window (os : OS) : Except PyError (Option Window) × List NativeCall :=
  match dllInvoke os ("GetForegroundWindow") [] [] with
  | (Except.error e, t) => (Except.error e, t)
  | (Except.ok hWnd, t) =>
    if hWnd = 0 then (Except.ok none, t)
    else
      match Window.init hWnd with
      | Except.error e => (Except.error e, t)
      | Except.ok w => (Except.ok (some w), t)

/-- Embeds `get_active_window()`: null handle means None, without raising. -/
def get_active_window (os : OS) : Except PyError (Option Window) × List NativeCall :=
  match dllInvoke os ("GetActiveWindow") [] [] with
  | (Except.error e, t) => (Except.error e, t)
  | (Except.ok hWnd, t) =>
    if hWnd = 0 then (Except.ok none, t)
    else
      match Window.init hWnd with
      | Except.error e => (Except.error e, t)
      | Except.ok w => (Except.ok (some w), t)

/-- Embeds `get_desktop_window()`: passes the native result straight to the Window
constructor with no null check. -/
def get_desktop_window (os : OS) : Except PyError Window × List NativeCall :=
  match dllInvoke os ("GetDesktopWindow") [] [] with
  | (Except.error e, t) => (Except.error e, t)
  | (Except.ok hWnd, t) =>
    match Window.init hWnd with
    | Except.error e => (Except.error e, t)
    | Except.ok w => (Except.ok w, t)

/-- Embeds `find_window(windowName)`: FindWindowW(NULL, windowName); raises via
the last-error helper on a null handle, otherwise builds a Window. -/
def find_window (os : OS) (windowName : String) : Except PyError Window × List NativeCall :=
  match dllInvoke os ("FindWindowW") [NULL] [windowName] with
  | (Except.error e, t) => (Except.error e, t)
  | (Except.ok hWnd, t) =>
    if hWnd = NULL then
      match raiseWithLastError os with
      | (e, t2) => (Except.error e, t ++ t2)
    else
      match Window.init hWnd with
      | Except.error e => (Except.error e, t)
      | Except.ok w => (Except.ok w, t)

/-- Embeds `get_window(window_obj, relationship)`: GetWindow(hWnd, uCmd); raises
via the last-error helper on a null handle, otherwise builds a Window. -/
def get_window (os : OS) (w : Window) (relationship : Int) :
    Except PyError Window × List NativeCall :=
  match dllInvoke os ("GetWindow") [w.hWnd, relationship] [] with
  | (Except.error e, t) => (Except.error e, t)
  | (Except.ok hWnd, t) =>
    if hWnd = NULL then
      match raiseWithLastError os with
      | (e, t2) => (Except.error e, t ++ t2)
    else
      match Window.init hWnd with
      | Except.error e => (Except.error e, t)
      | Except.ok w2 => (Except.ok w2, t)

/-- Embeds `is_zoomed(window_obj)`: IsZoomed, a pure boolean predicate. -/
def is_zoomed (os : OS) (w : Window) : Except PyError Bool × List NativeCall :=
  match dllInvoke os ("IsZoomed") [w.hWnd] [] with
  | (Except.error e, t) => (Except.error e, t)
  | (Except.ok r, t) => (Except.ok (r != 0), t)

/-- Embeds `is_iconic(window_obj)`: IsIconic, a pure boolean predicate. -/
def is_iconic (os : OS) (w : Window) : Except PyError Bool × List NativeCall :=
  match dllInvoke os ("IsIconic") [w.hWnd] [] with
  | (Except.error e, t) => (Except.error e, t)
  | (Except.ok r, t) => (Except.ok (r != 0), t)

/-- Embeds `show_window(window_obj, action)`: invokes ShowWindow and translates its
zero/nonzero result into the previous-visibility strings.  Never raises. -/
def show_window (os : OS) (w : Window) (action : Int) :
    Except PyError String × List NativeCall :=
  match dllInvoke os ("ShowWindow") [w.hWnd, action] [] with
  | (Except.error e, t) => (Except.error e, t)
  | (Except.ok r, t) =>
    if r = 0 then (Except.ok ("window was previously hidden"), t)
    else (Except.ok ("window was previously visible"), t)

/-- Embeds `open_icon(window_obj)`: OpenIcon; raises via the last-error helper on a
zero result, else returns True. -/
def open_icon (os : OS) (w : Window) : Except PyError Bool × List NativeCall :=
  match dllInvoke os ("OpenIcon") [w.hWnd] [] with
  | (Except.error e, t) => (Except.error e, t)
  | (Except.ok r, t) =>
    if r = 0 then
      match raiseWithLastError os with
      | (e, t2) => (Except.error e, t ++ t2)
    else (Except.ok true, t)

/-- Embeds `Window.hide()`: `return show_window(self, SW_HIDE)` — returns the
previous-visibility string. -/
def Window.hide (os : OS) (w : Window) : Except PyError (Option String) × List NativeCall :=
  match show_window os w SW_HIDE with
  | (Except.error e, t) => (Except.error e, t)
  | (Except.ok s, t) => (Except.ok (some s), t)

/-- Embeds `Window.show()`: `return show_window(self, SW_SHOW)` — returns the
previous-visibility string. -/
def Window.show (os : OS) (w : Window) : Except PyError (Option String) × List NativeCall :=
  match show_window os w SW_SHOW with
  | (Except.error e, t) => (Except.error e, t)
  | (Except.ok s, t) => (Except.ok (some s), t)

/-- Embeds `Window.force_minimize()`: `return show_window(self, SW_FORCEMINIMIZE)` —
returns the previous-visibility string. -/
def Window.force_minimize (os : OS) (w : Window) :
    Except PyError (Option String) × List NativeCall :=
  match show_window os w SW_FORCEMINIMIZE with
  | (Except.error e, t) => (Except.error e, t)
  | (Except.ok s, t) => (Except.ok (some s), t)

/-- Embeds `Window.maximize()`: `show_window(self, SW_SHOWMAXIMIZED)` with NO
return statement — the Python method returns None, discarding the
previous-visibility string. -/
def Window.maximize (os : OS) (w : Window) :
    Except PyError (Option String) × List NativeCall :=
  match show_window os w SW_SHOWMAXIMIZED with
  | (Except.error e, t) => (Except.error e, t)
  | (Except.ok _, t) => (Except.ok none, t)

/-- Embeds `Window.minimize()`: `show_window(self, SW_SHOWMINIMIZED)` with NO
return statement — the Python method returns None. -/
def Window.minimize (os : OS) (w : Window) :
    Except PyError (Option String) × List NativeCall :=
  match show_window os w SW_SHOWMINIMIZED with
  | (Except.error e, t) => (Except.error e, t)
  | (Except.ok _, t) => (Except.ok none, t)

/-- Embeds `Window.restore()`: `show_window(self, SW_RESTORE)` with NO return
statement — the Python method returns None. -/
def Window.restore (os : OS) (w : Window) :
    Except PyError (Option String) × List NativeCall :=
  match show_window os w SW_RESTORE with
  | (Except.error e, t) => (Except.error e, t)
  | (Except.ok _, t) => (Except.ok none, t)

/-- The `maximized` property setter: on True, maximize; on False, restore
only when IsZoomed reports the window currently maximized, else do
nothing. -/
def Window.setMaximized (os : OS) (w : Window) (value : Bool) :
    Except PyError Unit × List NativeCall :=
  if value then
    match Window.maximize os w with
    | (Except.error e, t) => (Except.error e, t)
    | (Except.ok _, t) => (Except.ok (), t)
  else
    match is_zoomed os w with
    | (Except.error e, t) => (Except.error e, t)
    | (Except.ok true, t) =>
      match Window.restore os w with
      | (Except.error e, t2) => (Except.error e, t ++ t2)
      | (Except.ok _, t2) => (Except.ok (), t ++ t2)
    | (Except.ok false, t) => (Except.ok (), t)

/-- The `minimized` property setter: on True, minimize; on False, call
open_icon only when IsIconic reports the window currently minimized, else
do nothing. -/
def Window.setMinimized (os : OS) (w : Window) (value : Bool) :
    Except PyError Unit × List NativeCall :=
  if value then
    match Window.minimize os w with
    | (Except.error e, t) => (Except.error e, t)
    | (Except.ok _, t) => (Except.ok (), t)
  else
    match is_iconic os w with
    | (Except.error e, t) => (Except.error e, t)
    | (Except.ok true, t) =>
      match open_icon os w with
      | (Except.error e, t2) => (Except.error e, t ++ t2)
      | (Except.ok _, t2) => (Except.ok (), t ++ t2)
    | (Except.ok false, t) => (Except.ok (), t)

/-- Embeds `lock_set_foreground_window(lock=True)`: the source dispatches to the
entry-point name LocSetForegroundWindow, exactly as spelled on line 928
of the source (the real user32 export is LockSetForegroundWindow). -/
def lock_set_foreground_window (os : OS) (lock : Bool) :
    Except PyError Bool × List NativeCall :=
  match dllInvoke os ("LocSetForegroundWindow") [if lock then LSFW_LOCK else LSFW_UNLOCK] [] with
  | (Except.error e, t) => (Except.error e, t)
  | (Except.ok r, t) =>
    if r = 0 then
      match raiseWithLastError os with
      | (e, t2) => (Except.error e, t ++ t2)
    else (Except.ok true, t)

/-- The dict literal in message_box that maps the native button-id result
to its outcome string. -/
def messageBoxButtonMap (result : Int) : Option String :=
  if result = IDABORT then some ("abort")
  else if result = IDCANCEL then some ("cancel")
  else if result = IDCONTINUE then some ("continue")
  else if result = IDIGNORE then some ("ignore")
  else if result = IDNO then some ("no")
  else if result = IDOK then some ("ok")
  else if result = IDRETRY then some ("retry")
  else if result = IDTRYAGAIN then some ("try again")
  else if result = IDYES then some ("yes")
  else none

/-- Embeds `message_box(owner, text, caption, box_type)`: MessageBoxW; a zero
result raises via the last-error helper; a nonzero result is looked up in
the button dict, and a missing key raises KeyError. -/
def message_box (os : OS) (owner : Window) (text caption : String) (box_type : Int) :
    Except PyError String × List NativeCall :=
  match dllInvoke os ("MessageBoxW") [owner.hWnd, box_type] [text, caption] with
  | (Except.error e, t) => (Except.error e, t)
  | (Except.ok result, t) =>
    if result = 0 then
      match raiseWithLastError os with
      | (e, t2) => (Except.error e, t ++ t2)
    else
      match messageBoxButtonMap result with
      | some s => (Except.ok s, t)
      | none => (Except.error (PyError.keyError result), t)

/-- A ctypes argument as relevant to get_window_placement: either the
WINDOWPLACEMENT class object itself, or an instance created by calling
the class. -/
inductive CArg where
  | structType
  | structInstance
deriving DecidableEq

/-- Embeds `ctypes.byref(x)`: requires a ctypes instance; a class object raises
TypeError. -/
def byref : CArg → Except PyError CArg
  | CArg.structInstance => Except.ok CArg.structInstance
  | CArg.structType => Except.error (PyError.typeError ("byref() argument must be a ctypes instance"))

/-- Embeds `get_window_placement(window_obj)`: line 703 of the source reads
`windowPlacement = WINDOWPLACEMENT` — without parentheses, binding the
class object itself rather than an instance — and then passes it to
ctypes.byref. -/
def get_window_placement (os : OS) (w : Window) : Except PyError CArg × List NativeCall :=
  let windowPlacement := CArg.structType
  match byref windowPlacement with
  | Except.error e => (Except.error e, [])
  | Except.ok _ =>
    match dllInvoke os ("GetWindowPlacement") [w.hWnd] [] with
    | (Except.error e, t) => (Except.error e, t)
    | (Except.ok result, t) =>
      if result = 0 then
        match raiseWithLastError os with
        | (e, t2) => (Except.error e, t ++ t2)
      else (Except.ok windowPlacement, t)

/-- The POINT struct: ctypes zero-initializes both fields. -/
structure PyPOINT where
  x : Int
  y : Int
deriving DecidableEq

/-- Embeds `window_from_point(x, y)`: builds `cursor = POINT()` and never assigns
its fields from x and y, then dispatches to WindowFromPhysicalPoint (not
WindowFromPoint), returning None on a null handle. -/
def window_from_point (os : OS) (x y : Int) :
    Except PyError (Option Window) × List NativeCall :=
  let cursor : PyPOINT := ⟨0, 0⟩
  match dllInvoke os ("WindowFromPhysicalPoint") [cursor.x, cursor.y] [] with
  | (Except.error e, t) => (Except.error e, t)
  | (Except.ok hWnd, t) =>
    if hWnd = 0 then (Except.ok none, t)
    else
      match Window.init hWnd with
      | Except.error e => (Except.error e, t)
      | Except.ok w => (Except.ok (some w), t)

/-- Native entry points that mutate window state, among those this module
issues.  IsZoomed, IsIconic and the Get* entry points are pure queries;
ShowWindow and OpenIcon drive window state transitions. -/
def mutatingNames : List String :=
  ["AnimateWindow", "BringWindowToTop", "CloseWindow", "DestroyWindow",
   "LockSetForegroundWindow", "MoveWindow", "OpenIcon", "SetForegroundWindow",
   "SetWindowPos", "SetWindowTextW", "ShowWindow", "ShowWindowAsync"]

/-- Whether a native call mutates window state. -/
def NativeCall.isMutating (c : NativeCall) : Bool :=
  mutatingNames.contains c.name

/-! Concrete operating-system oracles used for counterexamples and
witnesses. -/

/-- An OS whose every native call returns 0 and whose FormatMessageW
allocates no text. -/
def osZero : OS := ⟨fun _ => 0, fun _ => none⟩

/-- An OS whose every native call returns 1 and whose FormatMessageW
always produces the text ("boom"). -/
def osOne : OS := ⟨fun _ => 1, fun _ => some ("boom")⟩

/-- An OS whose every native call returns the fixed value `n` and whose
FormatMessageW always produces the text ("boom"). -/
def osConst (n : Int) : OS := ⟨fun _ => n, fun _ => some ("boom")⟩

/-- An OS whose every native call returns 0 but whose FormatMessageW
produces the text ("boom"), so the last-error helper raises
NiceWinException rather than AttributeError. -/
def osZeroMsg : OS := ⟨fun _ => 0, fun _ => some ("boom")⟩

/-! Named native-call records, for readable statements. -/

/-- The GetLastError invocation record. -/
def glCall : NativeCall := ⟨"GetLastError", [], []⟩

/-- The FormatMessageW invocation record for a given error code. -/
def fmtCall (code : Int) : NativeCall := ⟨"FormatMessageW", [fmtFlags, NULL, code, 0, 0, NULL], []⟩

/-- The LocalFree invocation record. -/
def freeCall : NativeCall := ⟨"LocalFree", [], []⟩

/-- The ShowWindow invocation record for a window and action. -/
def showCall (w : Window) (action : Int) : NativeCall := ⟨"ShowWindow", [w.hWnd, action], []⟩

/-- The IsZoomed invocation record for a window. -/
def isZoomedCall (w : Window) : NativeCall := ⟨"IsZoomed", [w.hWnd], []⟩

/-- The IsIconic invocation record for a window. -/
def isIconicCall (w : Window) : NativeCall := ⟨"IsIconic", [w.hWnd], []⟩

/-- The OpenIcon invocation record for a window. -/
def openIconCall (w : Window) : NativeCall := ⟨"OpenIcon", [w.hWnd], []⟩

/-- The FindWindowW invocation record for a window name. -/
def findCall (name : String) : NativeCall := ⟨"FindWindowW", [NULL], [name]⟩

/-- The GetWindow invocation record for a window and relationship code. -/
def getWindowCall (w : Window) (rel : Int) : NativeCall := ⟨"GetWindow", [w.hWnd, rel], []⟩

/-- The MessageBoxW invocation record. -/
def mbCall (owner : Window) (text caption : String) (bt : Int) : NativeCall :=
  ⟨"MessageBoxW", [owner.hWnd, bt], [text, caption]⟩

/-! Helper lemmas shared by the claim proofs. -/

/-- Dispatch to an exported entry point issues exactly that call. -/
theorem dllInvoke_export (os : OS) (name : String) (args : List Int) (strArgs : List String)
    (h : name ∈ dllExports) :
    dllInvoke os name args strArgs =
      (Except.ok (os.call ⟨name, args, strArgs⟩), [⟨name, args, strArgs⟩]) := by
  unfold dllInvoke
  simp [h]

/-- Dispatch to an absent entry-point name raises AttributeError and issues
no native call. -/
theorem dllInvoke_missing (os : OS) (name : String) (args : List Int) (strArgs : List String)
    (h : name ∉ dllExports) :
    dllInvoke os name args strArgs = (Except.error (PyError.attributeError name), []) := by
  unfold dllInvoke
  simp [h]

/-- Characterization of format_message by the buffer oracle. -/
theorem format_message_eq (os : OS) (code : Int) :
    format_message os code =
      match os.formatBuffer code with
      | none => (Except.error (PyError.attributeError ("NoneType object has no attribute rstrip")),
                 [fmtCall code])
      | some s => (Except.ok (pyRstrip s), [fmtCall code, freeCall]) := by
  unfold format_message
  rw [dllInvoke_export _ _ _ _ (by decide)]
  cases h : os.formatBuffer code with
  | none => simp [fmtCall]
  | some s =>
    rw [dllInvoke_export _ _ _ _ (by decide)]
    simp [fmtCall, freeCall]

/-- Characterization of the last-error raise helper. -/
theorem raiseWithLastError_eq (os : OS) :
    raiseWithLastError os =
      match os.formatBuffer (os.call glCall) with
      | none => (PyError.attributeError ("NoneType object has no attribute rstrip"),
                 [glCall, fmtCall (os.call glCall)])
      | some s => (PyError.niceWinException
                    ("Error code from Windows: " ++ toString (os.call glCall) ++ " - " ++
                      pyRstrip s),
                 [glCall, fmtCall (os.call glCall), freeCall]) := by
  unfold raiseWithLastError
  rw [dllInvoke_export _ _ _ _ (by decide)]
  dsimp only
  rw [format_message_eq]
  cases h : os.formatBuffer (os.call ⟨"GetLastError", [], []⟩) with
  | none => simp only [glCall, fmtCall, freeCall]; rw [h]; rfl
  | some s => simp only [glCall, fmtCall, freeCall]; rw [h]; rfl

/-- Characterization of show_window: it issues one ShowWindow call and
translates the zero/nonzero result into the previous-visibility strings,
never raising. -/
theorem show_window_eq (os : OS) (w : Window) (action : Int) :
    show_window os w action =
      (Except.ok (if os.call (showCall w action) = 0 then ("window was previously hidden")
        else ("window was previously visible")),
       [showCall w action]) := by
  unfold show_window
  rw [dllInvoke_export _ _ _ _ (by decide)]
  by_cases h : os.call (showCall w action) = 0 <;> simp [showCall] at h ⊢ <;> simp [h]

/-- The IsZoomed wrapper issues one query call and booleanizes the result. -/
theorem is_zoomed_eq (os : OS) (w : Window) :
    is_zoomed os w = (Except.ok (os.call (isZoomedCall w) != 0), [isZoomedCall w]) := by
  unfold is_zoomed
  rw [dllInvoke_export _ _ _ _ (by decide)]
  rfl

/-- The IsIconic wrapper issues one query call and booleanizes the result. -/
theorem is_iconic_eq (os : OS) (w : Window) :
    is_iconic os w = (Except.ok (os.call (isIconicCall w) != 0), [isIconicCall w]) := by
  unfold is_iconic
  rw [dllInvoke_export _ _ _ _ (by decide)]
  rfl

/-- Characterization of open_icon. -/
theorem open_icon_eq (os : OS) (w : Window) :
    open_icon os w =
      (if os.call (openIconCall w) = 0 then
         (Except.error (raiseWithLastError os).1,
          openIconCall w :: (raiseWithLastError os).2)
       else (Except.ok true, [openIconCall w])) := by
  unfold open_icon
  rw [dllInvoke_export _ _ _ _ (by decide)]
  by_cases h : os.call (openIconCall w) = 0
  · simp only [isZoomedCall, openIconCall] at h ⊢
    simp [h]
  · simp only [isZoomedCall, openIconCall] at h ⊢
    simp [h]

/-- Characterization of Window.restore: one ShowWindow SW_RESTORE call,
result discarded. -/
theorem restore_eq (os : OS) (w : Window) :
    Window.restore os w = (Except.ok none, [showCall w SW_RESTORE]) := by
  unfold Window.restore
  rw [show_window_eq]

/-- Characterization of the maximized setter at value False. -/
theorem setMaximized_false_eq (os : OS) (w : Window) :
    Window.setMaximized os w false =
      (Except.ok (), if os.call (isZoomedCall w) = 0 then [isZoomedCall w]
        else [isZoomedCall w, showCall w SW_RESTORE]) := by
  unfold Window.setMaximized
  rw [is_zoomed_eq]
  by_cases h : os.call (isZoomedCall w) = 0
  · simp [h]
  · have hb : (os.call (isZoomedCall w) != 0) = true := by
      simp only [bne_iff_ne, ne_eq]
      exact h
    rw [hb]
    simp [h, restore_eq]

/-- Characterization of the minimized setter at value False. -/
theorem setMinimized_false_eq (os : OS) (w : Window) :
    Window.setMinimized os w false =
      (if os.call (isIconicCall w) = 0 then (Except.ok (), [isIconicCall w])
       else if os.call (openIconCall w) = 0 then
         (Except.error (raiseWithLastError os).1,
          isIconicCall w :: openIconCall w :: (raiseWithLastError os).2)
       else (Except.ok (), [isIconicCall w, openIconCall w])) := by
  unfold Window.setMinimized
  rw [is_iconic_eq]
  by_cases h : os.call (isIconicCall w) = 0
  · simp [h]
  · have hb : (os.call (isIconicCall w) != 0) = true := by
      simp only [bne_iff_ne, ne_eq]
      exact h
    rw [open_icon_eq, hb]
    by_cases h2 : os.call (openIconCall w) = 0
    · simp [h, h2]
    · simp [h, h2]

/-- The IsZoomed query does not mutate window state. -/
theorem isZoomedCall_not_mutating (w : Window) : (isZoomedCall w).isMutating = false := rfl

/-- The IsIconic query does not mutate window state. -/
theorem isIconicCall_not_mutating (w : Window) : (isIconicCall w).isMutating = false := rfl

/-- ShowWindow mutates window state. -/
theorem showCall_mutating (w : Window) (a : Int) : (showCall w a).isMutating = true := rfl

/-- OpenIcon mutates window state. -/
theorem openIconCall_mutating (w : Window) : (openIconCall w).isMutating = true := rfl

/-- The error-retrieval and error-formatting calls issued by the raise
helper do not mutate window state. -/
theorem raise_trace_not_mutating (os : OS) :
    (raiseWithLastError os).2.countP (fun c => c.isMutating) = 0 := by
  rw [raiseWithLastError_eq]
  cases h : os.formatBuffer (os.call glCall) <;>
    simp [List.countP_cons, NativeCall.isMutating, glCall, fmtCall, freeCall, mutatingNames]

/-- Characterization of find_window by the native lookup result. -/
theorem find_window_fst (os : OS) (name : String) :
    (find_window os name).1 =
      (if os.call (findCall name) = 0 then Except.error (raiseWithLastError os).1
       else Except.ok ⟨os.call (findCall name)⟩) := by
  unfold find_window
  rw [dllInvoke_export _ _ _ _ (by decide)]
  by_cases h : os.call (findCall name) = 0
  · simp only [findCall, NULL] at h ⊢
    simp [h]
  · simp only [findCall, NULL] at h ⊢
    simp [h, Window.init]

/-- Characterization of get_window by the native lookup result. -/
theorem get_window_fst (os : OS) (w : Window) (rel : Int) :
    (get_window os w rel).1 =
      (if os.call (getWindowCall w rel) = 0 then Except.error (raiseWithLastError os).1
       else Except.ok ⟨os.call (getWindowCall w rel)⟩) := by
  unfold get_window
  rw [dllInvoke_export _ _ _ _ (by decide)]
  by_cases h : os.call (getWindowCall w rel) = 0
  · simp only [getWindowCall, NULL] at h ⊢
    simp [h]
  · simp only [getWindowCall, NULL] at h ⊢
    simp [h, Window.init]

/-- Every outcome the button dict can produce is one of its nine literal
strings. -/
theorem messageBoxButtonMap_mem (r : Int) (s : String) (h : messageBoxButtonMap r = some s) :
    s ∈ ["abort", "cancel", "continue", "ignore", "no", "ok", "retry", "try again", "yes"] := by
  unfold messageBoxButtonMap at h
  split_ifs at h <;> first
    | exact Option.noConfusion h
    | simp_all

/-- A result the button dict maps is never the zero failure result. -/
theorem messageBoxButtonMap_nonzero (r : Int) (s : String) (h : messageBoxButtonMap r = some s) :
    ¬ r = 0 := by
  intro h0
  subst h0
  norm_num [messageBoxButtonMap, IDABORT, IDCANCEL, IDCONTINUE, IDIGNORE, IDNO, IDOK,
    IDRETRY, IDTRYAGAIN, IDYES] at h
  exact Option.noConfusion h

/-- Characterization of the message_box result by the native result. -/
theorem message_box_fst (os : OS) (owner : Window) (text caption : String) (bt : Int) :
    (message_box os owner text caption bt).1 =
      (if os.call (mbCall owner text caption bt) = 0 then
        Except.error (raiseWithLastError os).1
       else
        match messageBoxButtonMap (os.call (mbCall owner text caption bt)) with
        | some s => Except.ok s
        | none => Except.error (PyError.keyError (os.call (mbCall owner text caption bt)))) := by
  unfold message_box
  rw [dllInvoke_export _ _ _ _ (by decide)]
  by_cases h : os.call (mbCall owner text caption bt) = 0
  · simp only [mbCall] at h ⊢
    simp [h]
  · simp only [mbCall] at h ⊢
    simp only [h, if_neg h]
    cases hm : messageBoxButtonMap (os.call ⟨"MessageBoxW", [owner.hWnd, bt], [text, caption]⟩) <;>
      simp [hm]

/-! Claim theorems. -/

/-- C7: for every window and show-command action, show_window returns the
visibility state immediately before the call, as communicated by the native
result: the string saying the window was previously hidden exactly when the
ShowWindow result is zero, and the string saying it was previously visible
exactly when the result is nonzero; it issues exactly that one call and
never raises. -/
theorem C7_show_window_previous_visibility (os : OS) (w : Window) (action : Int) :
    show_window os w action =
      (Except.ok (if os.call (showCall w action) = 0 then ("window was previously hidden")
        else ("window was previously visible")),
       [showCall w action]) :=
  show_window_eq os w action

/-- C9: for every window handle, get_window_placement raises TypeError
before issuing any native call, because line 703 of the source passes the
WINDOWPLACEMENT class object (not an instance) to ctypes.byref; no
execution can reach the branch that returns a placement value. -/
theorem C9_get_window_placement_unreachable (os : OS) (w : Window) :
    get_window_placement os w =
      (Except.error (PyError.typeError ("byref() argument must be a ctypes instance")), []) := rfl

/-- C10: window_from_point never writes its x and y arguments into the
POINT it passes (the struct stays zero-initialized) and dispatches to
WindowFromPhysicalPoint, so for any two argument pairs under the same OS
state the result is identical, and the single call issued carries the
coordinates (0, 0). -/
theorem C10_window_from_point_ignores_arguments (os : OS) (x1 y1 x2 y2 : Int) :
    window_from_point os x1 y1 = window_from_point os x2 y2 ∧
    (window_from_point os x1 y1).2 = [⟨"WindowFromPhysicalPoint", [0, 0], []⟩] := by
  constructor
  · rfl
  · unfold window_from_point
    dsimp only
    rw [dllInvoke_export _ _ _ _ (by decide)]
    by_cases h : os.call ⟨"WindowFromPhysicalPoint", [0, 0], []⟩ = 0 <;>
      simp [h, Window.init]

/-- C4 (code defect): lock_set_foreground_window dispatches to the
misspelled entry-point name LocSetForegroundWindow (source line 928),
which no DLL exports, so for every lock argument it raises AttributeError
and issues no native call at all; in particular it never issues the real
LockSetForegroundWindow call.  The correctly spelled name does exist in
the export table, so the intended call was reachable only under the
correct spelling. -/
theorem C4_lock_set_foreground_window_typo (os : OS) (lock : Bool) :
    lock_set_foreground_window os lock =
      (Except.error (PyError.attributeError ("LocSetForegroundWindow")), []) ∧
    dllExports.contains ("LockSetForegroundWindow") = true ∧
    dllExports.contains ("LocSetForegroundWindow") = false := by
  refine ⟨?_, by decide, by decide⟩
  unfold lock_set_foreground_window
  rw [dllInvoke_missing _ _ _ _ (by decide)]

/-- C1 (counterexample): the claim says a null native handle makes all
three lookups return the None answer without raising, but
get_desktop_window has no null check: under an OS whose
GetDesktopWindow returns 0 it raises NiceWinException from the Window
constructor. -/
theorem C1_counterexample :
    (get_desktop_window osZero).1 =
      Except.error (PyError.niceWinException ("hWnd arg must be a nonzero integer")) := rfl

/-- C1 (amended): get_foreground_window and get_active_window return None
on a null native handle and a constructed Window on a non-null handle,
never raising; get_desktop_window passes the native result straight to
the Window constructor, so a null result raises the invalid-handle
NiceWinException and a non-null result yields a Window. -/
theorem C1_null_handle_handling (os : OS) :
    (get_foreground_window os).1 =
      (if os.call ⟨"GetForegroundWindow", [], []⟩ = 0 then Except.ok none
       else Except.ok (some ⟨os.call ⟨"GetForegroundWindow", [], []⟩⟩)) ∧
    (get_active_window os).1 =
      (if os.call ⟨"GetActiveWindow", [], []⟩ = 0 then Except.ok none
       else Except.ok (some ⟨os.call ⟨"GetActiveWindow", [], []⟩⟩)) ∧
    (get_desktop_window os).1 =
      (if os.call ⟨"GetDesktopWindow", [], []⟩ = 0
       then Except.error (PyError.niceWinException ("hWnd arg must be a nonzero integer"))
       else Except.ok ⟨os.call ⟨"GetDesktopWindow", [], []⟩⟩) := by
  refine ⟨?_, ?_, ?_⟩
  · unfold get_foreground_window
    rw [dllInvoke_export _ _ _ _ (by decide)]
    by_cases h : os.call ⟨"GetForegroundWindow", [], []⟩ = 0 <;> simp [h, Window.init]
  · unfold get_active_window
    rw [dllInvoke_export _ _ _ _ (by decide)]
    by_cases h : os.call ⟨"GetActiveWindow", [], []⟩ = 0 <;> simp [h, Window.init]
  · unfold get_desktop_window
    rw [dllInvoke_export _ _ _ _ (by decide)]
    by_cases h : os.call ⟨"GetDesktopWindow", [], []⟩ = 0 <;> simp [h, Window.init]

/-- C2 (counterexample): the claim says Window.maximize returns the same
previous-visibility result as show_window with SW_SHOWMAXIMIZED, but the
Python method has no return statement: under an OS whose ShowWindow
returns 1, maximize evaluates to None while show_window returns the
previously-visible string, and those results are unequal. -/
theorem C2_counterexample :
    (Window.maximize osOne ⟨1⟩).1 = Except.ok none ∧
    (show_window osOne ⟨1⟩ SW_SHOWMAXIMIZED).1 = Except.ok ("window was previously visible") ∧
    decide ((Except.ok (none : Option String) : Except PyError (Option String)) =
      Except.ok (some ("window was previously visible"))) = false :=
  ⟨rfl, rfl, rfl⟩

/-- C2 (amended): hide, show and force_minimize are exactly show_window
with SW_HIDE, SW_SHOW and SW_FORCEMINIMIZE, issuing the identical single
native call and returning its previous-visibility result; maximize,
minimize and restore issue the identical single show_window call with
SW_SHOWMAXIMIZED, SW_SHOWMINIMIZED and SW_RESTORE but discard its result
and return None. -/
theorem C2_convenience_methods (os : OS) (w : Window) :
    Window.hide os w = ((show_window os w SW_HIDE).1.map some, (show_window os w SW_HIDE).2) ∧
    Window.show os w = ((show_window os w SW_SHOW).1.map some, (show_window os w SW_SHOW).2) ∧
    Window.force_minimize os w =
      ((show_window os w SW_FORCEMINIMIZE).1.map some, (show_window os w SW_FORCEMINIMIZE).2) ∧
    Window.maximize os w = (Except.ok none, (show_window os w SW_SHOWMAXIMIZED).2) ∧
    Window.minimize os w = (Except.ok none, (show_window os w SW_SHOWMINIMIZED).2) ∧
    Window.restore os w = (Except.ok none, (show_window os w SW_RESTORE).2) := by
  refine ⟨?_, ?_, ?_, ?_, ?_, ?_⟩
  · unfold Window.hide; rw [show_window_eq]; rfl
  · unfold Window.show; rw [show_window_eq]; rfl
  · unfold Window.force_minimize; rw [show_window_eq]; rfl
  · unfold Window.maximize; rw [show_window_eq]
  · unfold Window.minimize; rw [show_window_eq]
  · unfold Window.restore; rw [show_window_eq]

/-- C3 (counterexample): the claim says the buffer is freed exactly once
on every exit path, including when the native formatting call produced no
text, but under an OS whose FormatMessageW allocates nothing the function
raises AttributeError from None.rstrip() before the LocalFree line, so the
trace contains zero LocalFree calls. -/
theorem C3_counterexample :
    (format_message osZero 5).2.countP (fun c => c.name == "LocalFree") = 0 ∧
    (format_message osZero 5).1 =
      Except.error (PyError.attributeError ("NoneType object has no attribute rstrip")) :=
  ⟨rfl, rfl⟩

/-- C3 (amended): when the formatting call deposits text (even empty) in
the buffer, format_message frees the buffer exactly once, immediately
after the formatting call with no other native call in between, and
returns the text stripped of trailing whitespace; when the call deposits
no text, the function raises AttributeError and never reaches the free. -/
theorem C3_format_message_buffer (os : OS) (errorCode : Int) :
    (∀ s, os.formatBuffer errorCode = some s →
      format_message os errorCode = (Except.ok (pyRstrip s), [fmtCall errorCode, freeCall])) ∧
    (os.formatBuffer errorCode = none →
      format_message os errorCode =
        (Except.error (PyError.attributeError ("NoneType object has no attribute rstrip")),
         [fmtCall errorCode])) := by
  constructor
  · intro s h
    rw [format_message_eq, h]
  · intro h
    rw [format_message_eq, h]

/-- C3 (witness): concrete evaluation of the amended claim on an OS whose
buffer text is ("boom"). -/
theorem C3_format_message_buffer_witness :
    osOne.formatBuffer 5 = some ("boom") ∧
    format_message osOne 5 = (Except.ok ("boom"), [fmtCall 5, freeCall]) :=
  ⟨rfl, ((C3_format_message_buffer osOne 5).1 ("boom") rfl).trans (by decide)⟩

/-- C5 (counterexample): the claim says every nonzero native result is
mapped to one of the nine named outcomes, but under an OS whose
MessageBoxW returns 8 the dict lookup raises KeyError; moreover the
outcome the dict stores for IDTRYAGAIN is the string with a space, which
differs from the claimed name. -/
theorem C5_counterexample :
    (message_box (osConst 8) ⟨1⟩ "text" "caption" MB_OKCANCEL).1 =
      Except.error (PyError.keyError 8) ∧
    (message_box (osConst 10) ⟨1⟩ "text" "caption" MB_OKCANCEL).1 =
      Except.ok ("try again") ∧
    (("try again" : String) == "tryagain") = false :=
  ⟨rfl, rfl, rfl⟩

/-- C5 (amended): a zero native result raises the composed last-error
exception; a nonzero result is mapped exactly when it is one of the nine
button ids, to one of the literal strings abort, cancel, continue,
ignore, no, ok, retry, try again (with a space), yes; any other nonzero
result raises KeyError; and the IDCANCEL result returns the literal string
cancel. -/
theorem C5_message_box_outcomes (os : OS) (owner : Window) (text caption : String) (bt : Int) :
    (os.call (mbCall owner text caption bt) = 0 →
      (message_box os owner text caption bt).1 = Except.error (raiseWithLastError os).1) ∧
    (∀ s, messageBoxButtonMap (os.call (mbCall owner text caption bt)) = some s →
      (message_box os owner text caption bt).1 = Except.ok s ∧
      s ∈ ["abort", "cancel", "continue", "ignore", "no", "ok", "retry", "try again", "yes"]) ∧
    (¬ os.call (mbCall owner text caption bt) = 0 →
      messageBoxButtonMap (os.call (mbCall owner text caption bt)) = none →
      (message_box os owner text caption bt).1 =
        Except.error (PyError.keyError (os.call (mbCall owner text caption bt)))) ∧
    (os.call (mbCall owner text caption bt) = IDCANCEL →
      (message_box os owner text caption bt).1 = Except.ok ("cancel")) := by
  refine ⟨?_, ?_, ?_, ?_⟩
  · intro h0
    rw [message_box_fst, if_pos h0]
  · intro s hs
    have hnz := messageBoxButtonMap_nonzero _ _ hs
    constructor
    · rw [message_box_fst, if_neg hnz, hs]
    · exact messageBoxButtonMap_mem _ _ hs
  · intro h0 hn
    rw [message_box_fst, if_neg h0, hn]
  · intro hc
    have hs : messageBoxButtonMap (os.call (mbCall owner text caption bt)) = some ("cancel") := by
      rw [hc]
      rfl
    have hnz := messageBoxButtonMap_nonzero _ _ hs
    rw [message_box_fst, if_neg hnz, hs]

/-- C5 (witness): concrete evaluation — an OS whose MessageBoxW returns
IDCANCEL makes message_box return the literal string cancel. -/
theorem C5_message_box_outcomes_witness :
    (osConst 2).call (mbCall ⟨1⟩ "text" "caption" MB_OKCANCEL) = IDCANCEL ∧
    (message_box (osConst 2) ⟨1⟩ "text" "caption" MB_OKCANCEL).1 = Except.ok ("cancel") :=
  ⟨rfl, (C5_message_box_outcomes (osConst 2) ⟨1⟩ "text" "caption" MB_OKCANCEL).2.2.2 rfl⟩

/-- C6: setting maximized to False performs the IsZoomed query and then,
when the window is not maximized, no native mutating call at all (so the
window state, mutable only through native calls, is unchanged), and when
it is maximized, exactly one ShowWindow SW_RESTORE call; the minimized
setter at False follows the same pattern with the IsIconic query and one
OpenIcon call. -/
theorem C6_setter_noop_law (os : OS) (w : Window) :
    (Window.setMaximized os w false =
      (Except.ok (), if os.call (isZoomedCall w) = 0 then [isZoomedCall w]
        else [isZoomedCall w, showCall w SW_RESTORE])) ∧
    ((Window.setMaximized os w false).2.countP (fun c => c.isMutating) =
      if os.call (isZoomedCall w) = 0 then 0 else 1) ∧
    ((Window.setMinimized os w false).2.countP (fun c => c.isMutating) =
      if os.call (isIconicCall w) = 0 then 0 else 1) ∧
    (os.call (isIconicCall w) = 0 →
      Window.setMinimized os w false = (Except.ok (), [isIconicCall w])) ∧
    (¬ os.call (isIconicCall w) = 0 → ¬ os.call (openIconCall w) = 0 →
      Window.setMinimized os w false = (Except.ok (), [isIconicCall w, openIconCall w])) := by
  refine ⟨setMaximized_false_eq os w, ?_, ?_, ?_, ?_⟩
  · rw [setMaximized_false_eq]
    by_cases h : os.call (isZoomedCall w) = 0 <;>
      simp [h, List.countP_cons, isZoomedCall_not_mutating, showCall_mutating]
  · rw [setMinimized_false_eq]
    by_cases h : os.call (isIconicCall w) = 0
    · simp [h, List.countP_cons, isIconicCall_not_mutating]
    · by_cases h2 : os.call (openIconCall w) = 0 <;>
        simp [h, h2, List.countP_cons, isIconicCall_not_mutating, openIconCall_mutating,
          raise_trace_not_mutating]
  · intro h
    rw [setMinimized_false_eq, if_pos h]
  · intro h h2
    rw [setMinimized_false_eq, if_neg h, if_neg h2]

/-- C6 (witness): concrete evaluation — under an OS reporting not-iconic,
setting minimized to False issues only the IsIconic query. -/
theorem C6_setter_noop_law_witness :
    osZero.call (isIconicCall ⟨7⟩) = 0 ∧
    Window.setMinimized osZero ⟨7⟩ false = (Except.ok (), [isIconicCall ⟨7⟩]) :=
  ⟨rfl, (C6_setter_noop_law osZero ⟨7⟩).2.2.2.1 rfl⟩

/-- C8: constructing a Window from the raw value zero always fails with
the invalid-handle NiceWinException; for every nonzero handle the
construction succeeds; find_window and get_window raise exactly when the
native lookup yields a null handle, and the exception raised (whenever
the OS supplies message text for the last error, as the NativeCallFailed
contract assumes) is the NiceWinException carrying the error code and
formatted message; a non-null handle yields a successfully constructed
Window. -/
theorem C8_handle_construction (os : OS) (h : Int) (name : String) (w : Window) (rel : Int) :
    (Window.init 0 =
      Except.error (PyError.niceWinException ("hWnd arg must be a nonzero integer"))) ∧
    (¬ h = 0 → Window.init h = Except.ok ⟨h⟩) ∧
    (¬ os.call (findCall name) = 0 →
      (find_window os name).1 = Except.ok ⟨os.call (findCall name)⟩) ∧
    (os.call (findCall name) = 0 →
      (find_window os name).1 = Except.error (raiseWithLastError os).1) ∧
    (¬ os.call (getWindowCall w rel) = 0 →
      (get_window os w rel).1 = Except.ok ⟨os.call (getWindowCall w rel)⟩) ∧
    (os.call (getWindowCall w rel) = 0 →
      (get_window os w rel).1 = Except.error (raiseWithLastError os).1) ∧
    (∀ s, os.formatBuffer (os.call glCall) = some s →
      (raiseWithLastError os).1 = PyError.niceWinException
        ("Error code from Windows: " ++ toString (os.call glCall) ++ " - " ++ pyRstrip s)) := by
  refine ⟨rfl, ?_, ?_, ?_, ?_, ?_, ?_⟩
  · intro hnz
    simp [Window.init, hnz]
  · intro hnz
    rw [find_window_fst, if_neg hnz]
  · intro hz
    rw [find_window_fst, if_pos hz]
  · intro hnz
    rw [get_window_fst, if_neg hnz]
  · intro hz
    rw [get_window_fst, if_pos hz]
  · intro s hs
    rw [raiseWithLastError_eq, hs]

/-- C8 (witness): concrete evaluations — nonzero construction succeeds, a
non-null lookup yields a Window, and a null lookup raises the composed
NiceWinException. -/
theorem C8_handle_construction_witness :
    ¬ (1 : Int) = 0 ∧
    Window.init 1 = Except.ok ⟨1⟩ ∧
    (find_window osOne ("npp")).1 = Except.ok ⟨1⟩ ∧
    (find_window osZeroMsg ("npp")).1 = Except.error (raiseWithLastError osZeroMsg).1 ∧
    (raiseWithLastError osZeroMsg).1 =
      PyError.niceWinException ("Error code from Windows: 0 - boom") :=
  ⟨by decide,
   (C8_handle_construction osOne 1 ("npp") ⟨1⟩ 0).2.1 (by decide),
   (C8_handle_construction osOne 1 ("npp") ⟨1⟩ 0).2.2.1 (by decide),
   (C8_handle_construction osZeroMsg 1 ("npp") ⟨1⟩ 0).2.2.2.1 rfl,
   ((C8_handle_construction osZeroMsg 1 ("npp") ⟨1⟩ 0).2.2.2.2.2.2 ("boom") rfl).trans
     (by decide)⟩

end NiceWin
